import Mathlib

/-!
Verification of the batch orchestration and partial-failure recovery engine of
the `dnn_factor_production` repository.  Python code is shallowly embedded:
pure functions become Lean functions, stateful code becomes explicit state
passing, a Python exception becomes an explicit error value, and the file
system (input folder listing, output folder contents, failure-ledger file) is
passed around as explicit data.  Every definition is transcribed from the
Python source under `src/`, except where a doc comment says
`Modelled from the spec:` (for repository code that is only imported, never
defined, under `src/`).
-/

namespace DnnFactor

/-! ### Python string primitives

Transcriptions of the exact string operations the source uses
(`str.endswith`, `str.strip`, `str.split("|")`, `str.replace`), implemented
structurally over the character list of a `String` so that every concrete
evaluation reduces in the kernel.  Python's `str.strip()` removes Unicode
whitespace; the filenames and ledger lines handled here only carry ASCII
whitespace, modelled by `Char.isWhitespace`. -/

/-- `listStartsWith pat cs` is true when `pat` is an initial segment of `cs`
(the check behind Python's `str.startswith` / anchored regex matching). -/
def listStartsWith : List Char → List Char → Bool
  | [], _ => true
  | _ :: _, [] => false
  | p :: ps, c :: cs => p == c && listStartsWith ps cs

/-- Python `s.endswith(suffix)`. -/
def strEndsWith (s suf : String) : Bool :=
  listStartsWith suf.data.reverse s.data.reverse

/-- Python `s.strip()`: drop whitespace from both ends. -/
def strStrip (s : String) : String :=
  String.mk (((s.data.dropWhile Char.isWhitespace).reverse.dropWhile
      Char.isWhitespace).reverse)

/-- Python `s.split("|")` on the character list: splitting on a single
delimiter character; always returns at least one (possibly empty) part. -/
def splitOnPipe : List Char → List (List Char)
  | [] => [[]]
  | c :: cs =>
    let r := splitOnPipe cs
    if c == '|' then [] :: r
    else
      match r with
      | h :: t => (c :: h) :: t
      | [] => [[c]]

/-- Python `s.split("|")` as a `String` operation. -/
def splitOnPipeStr (s : String) : List String :=
  (splitOnPipe s.data).map String.mk

/-- Left-to-right, non-overlapping replacement of each occurrence of `pat`
by `rep`, as Python `str.replace` does for a non-empty pattern.  The fuel is
the length of the scanned list, an upper bound on the number of steps. -/
def replaceAux : Nat → List Char → List Char → List Char → List Char
  | 0, cs, _, _ => cs
  | fuel + 1, cs, pat, rep =>
    match cs with
    | [] => []
    | c :: rest =>
      if !pat.isEmpty && listStartsWith pat cs then
        rep ++ replaceAux fuel (cs.drop pat.length) pat rep
      else
        c :: replaceAux fuel rest pat rep

/-- Python `s.replace(pat, rep)` for a non-empty `pat` (the source only
replaces the non-empty patterns `".SZ"`, `".SH"`, `".BJ"` and `"\n"`). -/
def pyReplace (s pat rep : String) : String :=
  String.mk (replaceAux s.data.length s.data pat.data rep.data)

/-! ### Filename parsing (`data_utils.parse_stock_info_from_filename`)

The source matches the regex
`([0-9]{6}\.[A-Z]{2})-(.+?)-日线后复权及常用指标-(\d{8})\.csv` with `re.match`
(anchored at the start only; trailing characters are permitted).  The lazy
group `(.+?)` takes the shortest non-empty run of non-newline characters
after which the rest of the pattern matches.  `\d` is modelled as an ASCII
digit (the decimal digits the repository's filenames use). -/

/-- One ASCII uppercase letter, the `[A-Z]` character class. -/
def isUpperAZ (c : Char) : Bool := 'A' ≤ c && c ≤ 'Z'

/-- The fixed literal between the stock-name group and the date group. -/
def sepLabelChars : List Char := "-日线后复权及常用指标-".data

/-- After a candidate end of the lazy name group, the remainder must carry
the separator label, eight digits, and the `.csv` literal; the matched date
is returned.  Trailing characters after `.csv` are permitted (`re.match`). -/
def matchAfterName (cs : List Char) : Option String :=
  if listStartsWith sepLabelChars cs then
    let cs2 := cs.drop sepLabelChars.length
    let d := cs2.take 8
    if d.length == 8 && d.all Char.isDigit
        && listStartsWith ".csv".data (cs2.drop 8) then
      some (String.mk d)
    else
      none
  else
    none

/-- Scan for the shortest non-empty name group (regex `(.+?)`, which does not
match a newline) such that the rest of the pattern matches; returns the name
and the date. -/
def scanName (acc : List Char) : List Char → Option (String × String)
  | [] => none
  | c :: rest =>
    if c == '\n' then none
    else
      match matchAfterName rest with
      | some date => some (String.mk (acc ++ [c]), date)
      | none => scanName (acc ++ [c]) rest

/-- `data_utils.parse_stock_info_from_filename`: six digits, a dot, two
uppercase letters, a hyphen, the lazy name group, the fixed label, an
eight-digit date, `.csv`.  Returns `(original_code, stock_name, date)` on a
match, `none` otherwise (the Python `(None, None, None)` triple). -/
def parse_stock_info_from_filename (filename : String) :
    Option (String × String × String) :=
  match filename.data with
  | d1 :: d2 :: d3 :: d4 :: d5 :: d6 :: p :: u1 :: u2 :: h :: rest =>
    if d1.isDigit && d2.isDigit && d3.isDigit && d4.isDigit && d5.isDigit
        && d6.isDigit && p == '.' && isUpperAZ u1 && isUpperAZ u2
        && h == '-' then
      match scanName [] rest with
      | some (name, date) =>
        some (String.mk [d1, d2, d3, d4, d5, d6, p, u1, u2], name, date)
      | none => none
    else
      none
  | _ => none

/-- `data_utils.convert_stock_code`: map the exchange suffix
`.SZ → .XSHE`, `.SH → .XSHG`, `.BJ → .BJSE`; any other suffix yields `None`.
As in the source, the rewrite uses `str.replace` (which substitutes every
occurrence, though for the nine-character codes produced by the filename
parser the suffix occurs exactly once). -/
def convert_stock_code (original_code : String) : Option String :=
  if strEndsWith original_code ".SZ" then
    some (pyReplace original_code ".SZ" ".XSHE")
  else if strEndsWith original_code ".SH" then
    some (pyReplace original_code ".SH" ".XSHG")
  else if strEndsWith original_code ".BJ" then
    some (pyReplace original_code ".BJ" ".BJSE")
  else
    none

/-- One entry of the stock list built by
`data_utils.get_stock_list_from_csv_folder` (a Python dict with these four
keys). -/
structure StockInfo where
  original_code : String
  converted_code : String
  stock_name : String
  date : String
deriving DecidableEq, Repr

/-- The per-filename step of the folder scan: skip names not ending in
`.csv`, skip names the regex rejects, skip codes with an unknown exchange
suffix; otherwise build the stock-info record. -/
def stockInfoOfFilename (filename : String) : Option StockInfo :=
  if !strEndsWith filename ".csv" then
    none
  else
    match parse_stock_info_from_filename filename with
    | none => none
    | some (original_code, stock_name, date) =>
      match convert_stock_code original_code with
      | none => none
      | some converted_code =>
        some ⟨original_code, converted_code, stock_name, date⟩

/-- Python `lst[:stop]` for an `int` bound: a non-negative bound takes a
prefix, a negative bound drops that many elements from the end (clamped). -/
def pySliceTo {α : Type} (xs : List α) (stop : Int) : List α :=
  if 0 ≤ stop then xs.take stop.toNat else xs.take (xs.length - (-stop).toNat)

/-- `data_utils.get_stock_list_from_csv_folder`: scan the folder listing in
order, keep the parseable entries, then — only when `limit` is truthy in
Python, that is, neither `None` nor `0` — truncate with `stock_list[:limit]`.
The folder listing (`os.listdir`) is passed in as an explicit list of
filenames in scan order. -/
def get_stock_list_from_csv_folder (listing : List String)
    (limit : Option Int) : List StockInfo :=
  let stock_list := listing.filterMap stockInfoOfFilename
  match limit with
  | none => stock_list
  | some l => if l ≠ 0 then pySliceTo stock_list l else stock_list

/-! ### Python runtime values at the executor boundary

`batch_processor.batch_process_stocks_parallel` receives whatever
`generate_factors_for_stock` returns through `future.result()`, tests it
with `is not None`, and calls `.to_csv` on it.  The values reaching that
boundary are `None`, data frames, strings, and — because
`factor_calculator.generate_factors_for_stock` returns a two-element tuple —
pairs; the data-frame payload itself is opaque to the orchestration code and
is modelled by an identifier. -/

inductive PyVal where
  | none : PyVal
  | df : Nat → PyVal
  | str : String → PyVal
  | pair : PyVal → PyVal → PyVal
deriving DecidableEq, Repr

/-- The Python `AttributeError` message raised by `(tuple).to_csv(...)`. -/
def tupleAttrMsg : String :=
  "AttributeError - tuple object has no attribute to_csv"

/-- Calling `.to_csv(...)` on a value: only a data frame has the attribute;
any other value raises `AttributeError` (modelled as an `Except.error`). -/
def to_csv : PyVal → Except String Unit
  | PyVal.df _ => Except.ok ()
  | PyVal.pair _ _ => Except.error tupleAttrMsg
  | PyVal.none =>
    Except.error "AttributeError - NoneType object has no attribute to_csv"
  | PyVal.str _ =>
    Except.error "AttributeError - str object has no attribute to_csv"

/-! ### The per-unit processor (`factor_calculator.generate_factors_for_stock`)

The body of `generate_factors_for_stock` calls the external market-data
provider; for the orchestration claims only the shape of its control flow
matters: with the whole body inside `try`, either every provider call
succeeds and the final data frame is returned as `(df, None)`; or
`instruments()` returns `None` and the function returns
`(None, message)` early without raising; or some statement raises, the
bare `except Exception` catches it, and `(None, f"{type} - {message}")` is
returned.  The behaviour of the underlying domain computation for one stock
is an input of the model. -/

inductive DomainOutcome where
  | success : Nat → DomainOutcome
  | instrumentsNone : DomainOutcome
  | raises : String → String → DomainOutcome
deriving DecidableEq, Repr

/-- `f"{type(e).__name__} - {str(e)}".replace("\n", " ")`.  Because the
replaced pattern is the single character `"\n"`, replacing inside the two
parts and concatenating is the same string as replacing in the
concatenation; the parts-wise form is used so that non-emptiness is
provable by `String.length_append`. -/
def stringifyException (ty msg : String) : String :=
  pyReplace ty "\n" " " ++ " - " ++ pyReplace msg "\n" " "

/-- The early-return message when `instruments()` finds no data
(`factor_calculator.py` lines 77-82). -/
def instrumentsNoneMsg (stock_symbol : String) : String :=
  "米筐API的 instruments 函数未能找到股票 " ++ stock_symbol ++ " 的基本信息"

/-- `generate_factors_for_stock(stock_symbol, end_date)`: a total function —
it never raises past its boundary — returning the Python tuple
`(payload_or_None, error_or_None)`. -/
def generate_factors_for_stock (stock_symbol : String)
    (dom : DomainOutcome) : PyVal :=
  match dom with
  | DomainOutcome.success d => PyVal.pair (PyVal.df d) PyVal.none
  | DomainOutcome.instrumentsNone =>
    PyVal.pair PyVal.none (PyVal.str (instrumentsNoneMsg stock_symbol))
  | DomainOutcome.raises ty msg =>
    PyVal.pair PyVal.none (PyVal.str (stringifyException ty msg))

/-! ### The parallel batch executor (`batch_processor.batch_process_stocks_parallel`)

The thread pool submits `generate_factors_for_stock` for every stock and the
single coordinating loop drains `as_completed(future_to_stock)`: worker
count only bounds how many futures are in flight, so its entire observable
effect is the order in which completed futures arrive, modelled by an
arbitrary reordering of the submitted list (theorems hypothesise it is a
permutation).  Each loop iteration is transcribed in `processCompleted`. -/

/-- One failure entry, the dict
`{"stock_code": ..., "stock_name": ..., "error": ...}`. -/
structure FailureRec where
  stock_code : String
  stock_name : String
  error : String
deriving DecidableEq, Repr

/-- The error text used when the processor returned `None`
(`"生成因子失败"`). -/
def genFailedMsg : String := "生成因子失败"

/-- The executor's mutable run state: the two counters, the accumulated
failure list, and the set of files present in the output folder. -/
structure BatchState where
  success_count : Nat
  failed_count : Nat
  failed_stocks : List FailureRec
  outputFiles : List String
deriving DecidableEq, Repr

/-- The fixed label used in every output artifact name. -/
def fixedLabel : String := "日线后复权及常用指标"

/-- `f"{stock_symbol}-{stock_name}-日线后复权及常用指标-{end_date}.csv"`. -/
def outputFilename (code name end_date : String) : String :=
  code ++ "-" ++ name ++ "-" ++ fixedLabel ++ "-" ++ end_date ++ ".csv"

/-- Writing a file into a folder: creating it or overwriting it in place. -/
def fsWrite (files : List String) (f : String) : List String :=
  if f ∈ files then files else files ++ [f]

/-- `f.endswith(".csv")`, the predicate behind `glob("*.csv")`. -/
def isCsvName (f : String) : Bool := strEndsWith f ".csv"

/-- One iteration of the `as_completed` loop (`batch_processor.py` lines
87-129): inside `try`, read the future's result; if it `is not None`, save
it with `.to_csv` — a raise there is caught by the same `except` — and
increment the success counter; if it is `None`, append a failure with the
fixed message; if the future's result (or the save) raised, append a
failure carrying the stringified exception. -/
def processCompleted (end_date : String) (st : BatchState)
    (item : StockInfo × Except String PyVal) : BatchState :=
  match item.2 with
  | Except.error e =>
    { st with
      failed_count := st.failed_count + 1,
      failed_stocks := st.failed_stocks
        ++ [⟨item.1.converted_code, item.1.stock_name, e⟩] }
  | Except.ok factors_df =>
    if factors_df ≠ PyVal.none then
      match to_csv factors_df with
      | Except.ok _ =>
        { st with
          outputFiles := fsWrite st.outputFiles
            (outputFilename item.1.converted_code item.1.stock_name end_date),
          success_count := st.success_count + 1 }
      | Except.error e =>
        { st with
          failed_count := st.failed_count + 1,
          failed_stocks := st.failed_stocks
            ++ [⟨item.1.converted_code, item.1.stock_name, e⟩] }
    else
      { st with
        failed_count := st.failed_count + 1,
        failed_stocks := st.failed_stocks
          ++ [⟨item.1.converted_code, item.1.stock_name, genFailedMsg⟩] }

/-- Draining the completed futures in arrival order. -/
def runBatchLoop (end_date : String)
    (completed : List (StockInfo × Except String PyVal))
    (init : BatchState) : BatchState :=
  completed.foldl (processCompleted end_date) init

/-- Whether one completed item takes the success branch (future resolved,
value not `None`, save did not raise). -/
def itemSucceeds (item : StockInfo × Except String PyVal) : Bool :=
  match item.2 with
  | Except.error _ => false
  | Except.ok v =>
    if v ≠ PyVal.none then
      match to_csv v with
      | Except.ok _ => true
      | Except.error _ => false
    else
      false

/-- The failure record a non-succeeding item appends (total; the value on a
succeeding item is never used). -/
def itemFailureRec (item : StockInfo × Except String PyVal) : FailureRec :=
  match item.2 with
  | Except.error e => ⟨item.1.converted_code, item.1.stock_name, e⟩
  | Except.ok v =>
    if v ≠ PyVal.none then
      match to_csv v with
      | Except.ok _ => ⟨item.1.converted_code, item.1.stock_name, ""⟩
      | Except.error e => ⟨item.1.converted_code, item.1.stock_name, e⟩
    else
      ⟨item.1.converted_code, item.1.stock_name, genFailedMsg⟩

/-- The futures submitted by the executor, in submission (input) order:
`executor.submit(generate_factors_for_stock, code, end_date)` — since
`generate_factors_for_stock` is total, every future resolves to a value. -/
def mkFutures (dom : String → DomainOutcome) (stock_list : List StockInfo) :
    List (StockInfo × Except String PyVal) :=
  stock_list.map fun s =>
    (s, Except.ok (generate_factors_for_stock s.converted_code
        (dom s.converted_code)))

/-! ### The failure ledger

`save_failed_stocks` is imported by `batch_processor` from `data_utils`
(`batch_processor.py` line 13) and called with the failure list at the end
of each run, but no definition of it exists anywhere under `src/`; only the
spec (§4.4) describes it.  The ledger file is modelled as a list of lines
(`Option` distinguishes a missing file from an empty one where needed). -/

/-- One ledger line, `stock_code|stock_name|error|timestamp` (the format the
reader in `data_utils.get_failed_stocks` documents and parses). -/
def serializeFailure (timestamp : String) (r : FailureRec) : String :=
  r.stock_code ++ "|" ++ r.stock_name ++ "|" ++ r.error ++ "|" ++ timestamp

/-- Modelled from the spec: `save_failed_stocks` (the spec's
`FailureLedger.write`, §4.4) is absent from `src/` — only its import and
call sites exist — and per the spec it "persists the given set as the
ledger's entire content, replacing whatever was there (this is a snapshot
write, not an append)".  The previous file content is an argument and is
discarded by the replacement write. -/
def save_failed_stocks (oldLedger : List String)
    (failures : List FailureRec) (timestamp : String) : List String :=
  let _ := oldLedger
  failures.map (serializeFailure timestamp)

/-- The whole of `batch_process_stocks_parallel` (`batch_processor.py` lines
49-138): build the stock list; on an empty list print and return at once —
before the output folder is cleaned; otherwise delete every `*.csv` in the
output folder, submit all futures, drain them in arrival order (`arrive`
reorders the submitted list), and, if any failures accumulated, snapshot
them to the ledger.  Returns the final run state and the ledger file
content. -/
def batch_process_stocks_parallel (listing : List String)
    (limit : Option Int) (end_date : String)
    (dom : String → DomainOutcome)
    (arrive : List (StockInfo × Except String PyVal) →
      List (StockInfo × Except String PyVal))
    (outDir : List String) (ledger : List String) (timestamp : String) :
    BatchState × List String :=
  let stock_list := get_stock_list_from_csv_folder listing limit
  if stock_list.isEmpty then
    (⟨0, 0, [], outDir⟩, ledger)
  else
    let outDir1 := outDir.filter fun f => !isCsvName f
    let completed := arrive (mkFutures dom stock_list)
    let final := runBatchLoop end_date completed ⟨0, 0, [], outDir1⟩
    let ledger2 :=
      if final.failed_stocks.isEmpty then ledger
      else save_failed_stocks ledger final.failed_stocks timestamp
    (final, ledger2)

/-! ### Reading the ledger (`data_utils.get_failed_stocks`) -/

/-- The dict `{"converted_code": ..., "stock_name": ...}` reconstructed from
one ledger line. -/
structure RetryStockInfo where
  converted_code : String
  stock_name : String
deriving DecidableEq, Repr

/-- One line of the ledger: strip it; skip it when blank; split on `|`; skip
it when it has fewer than two fields; otherwise keep the first two fields
(the remaining reason and timestamp fields are ignored). -/
def parseLedgerLine (line : String) : Option RetryStockInfo :=
  let stripped := strStrip line
  if stripped = "" then none
  else
    match splitOnPipeStr stripped with
    | p0 :: p1 :: _ => some ⟨p0, p1⟩
    | _ => none

/-- `data_utils.get_failed_stocks()` (zero parameters, `data_utils.py` lines
88-128): a missing ledger file yields `[]`; otherwise every line is parsed
by `parseLedgerLine` and the failures are collected.  The whole body sits in
`try/except` returning `[]` on any error; since no parsing step here can
fail, the model is total by construction, mirroring "never raises". -/
def get_failed_stocks_read (ledgerFile : Option (List String)) :
    List RetryStockInfo :=
  match ledgerFile with
  | none => []
  | some lines => lines.filterMap parseLedgerLine

/-- A blank-stripped line with at least two pipe-delimited fields — the
spec's description of a well-formed ledger line. -/
def goodLedgerLine (line : String) : Bool :=
  strStrip line ≠ "" && 2 ≤ (splitOnPipeStr (strStrip line)).length

/-- The work unit the spec says a well-formed line reconstructs: its first
two pipe-delimited fields. -/
def ledgerLineUnit (line : String) : RetryStockInfo :=
  ⟨(splitOnPipeStr (strStrip line)).getD 0 "",
   (splitOnPipeStr (strStrip line)).getD 1 ""⟩

/-! ### The retry pass (`batch_processor.retry_failed_stocks`)

`retry_failed_stocks` (lines 196-326) starts with
`get_failed_stocks(csv_folder_path, output_folder_path, end_date)` — three
positional arguments — while `data_utils.py` line 88 defines
`def get_failed_stocks():` with none, so in Python the call raises
`TypeError` before anything else happens.  The arity of the definition and
of the call are recorded as explicit constants and checked by the calling
convention, after which the serial retry loop (lines 278-317, the branch the
entry-point scripts select) is transcribed. -/

/-- Parameter count of `def get_failed_stocks():` (`data_utils.py` line 88). -/
def get_failed_stocks_arity : Nat := 0

/-- Positional arguments passed at the call
`get_failed_stocks(csv_folder_path, output_folder_path, end_date)`
(`batch_processor.py` line 202). -/
def retry_get_failed_stocks_argcount : Nat := 3

/-- A Python call checks the arity before the body runs. -/
def call_get_failed_stocks (argCount : Nat)
    (ledgerFile : Option (List String)) :
    Except String (List RetryStockInfo) :=
  if argCount = get_failed_stocks_arity then
    Except.ok (get_failed_stocks_read ledgerFile)
  else
    Except.error ("TypeError - get_failed_stocks takes 0 positional arguments but "
      ++ toString argCount ++ " were given")

/-- Run state of the serial retry loop. -/
structure RetryState where
  success_count : Nat
  failed_count : Nat
  retry_failed : List FailureRec
  outputFiles : List String
deriving DecidableEq, Repr

/-- One serial retry iteration (`batch_processor.py` lines 283-317): inside
`try`, call the processor; a non-`None` result is saved — a raise in the
save is caught by the same `except` — and counted a success; a `None`
result or a caught raise appends one failure record.  The
rate-limiting `time.sleep(1)` has no modelled state. -/
def processRetryUnit (end_date : String) (dom : String → DomainOutcome)
    (st : RetryState) (info : RetryStockInfo) : RetryState :=
  let factors_df := generate_factors_for_stock info.converted_code
    (dom info.converted_code)
  if factors_df ≠ PyVal.none then
    match to_csv factors_df with
    | Except.ok _ =>
      { st with
        outputFiles := fsWrite st.outputFiles
          (outputFilename info.converted_code info.stock_name end_date),
        success_count := st.success_count + 1 }
    | Except.error e =>
      { st with
        failed_count := st.failed_count + 1,
        retry_failed := st.retry_failed
          ++ [⟨info.converted_code, info.stock_name, e⟩] }
  else
    { st with
      failed_count := st.failed_count + 1,
      retry_failed := st.retry_failed
        ++ [⟨info.converted_code, info.stock_name, genFailedMsg⟩] }

/-- Final observable state of one retry run: the exception that escaped it
(if any), the two counters it reported, and the output folder and ledger
file as the run left them on disk. -/
structure RetryRunResult where
  raised : Option String
  success_count : Nat
  failed_count : Nat
  outDir : List String
  ledger : Option (List String)
deriving DecidableEq, Repr

/-- `retry_failed_stocks` (`batch_processor.py` lines 196-326, serial
branch): call `get_failed_stocks` with three arguments — which raises
`TypeError`, leaving everything on disk untouched; were the call to return,
an empty list would end the run at once ("all processed, nothing to
retry"), and otherwise each listed unit would be reprocessed serially and
the still-failing set snapshotted to the ledger only when non-empty. -/
def retry_failed_stocks_run (ledgerFile : Option (List String))
    (end_date : String) (dom : String → DomainOutcome)
    (outDir : List String) (timestamp : String) : RetryRunResult :=
  match call_get_failed_stocks retry_get_failed_stocks_argcount ledgerFile with
  | Except.error e =>
    { raised := some e, success_count := 0, failed_count := 0,
      outDir := outDir, ledger := ledgerFile }
  | Except.ok failed_stocks =>
    if failed_stocks.isEmpty then
      { raised := none, success_count := 0, failed_count := 0,
        outDir := outDir, ledger := ledgerFile }
    else
      let final := failed_stocks.foldl (processRetryUnit end_date dom)
        ⟨0, 0, [], outDir⟩
      let ledger2 :=
        if final.retry_failed.isEmpty then ledgerFile
        else some (save_failed_stocks (ledgerFile.getD [])
          final.retry_failed timestamp)
      { raised := none, success_count := final.success_count,
        failed_count := final.failed_count, outDir := final.outputFiles,
        ledger := ledger2 }

/-- The `TypeError` message every retry run raises. -/
def retryTypeErrorMsg : String :=
  "TypeError - get_failed_stocks takes 0 positional arguments but 3 were given"

/-! ### Module import structure

`batch_processor.py` line 11 executes
`from data_utils import (get_stock_list_from_csv_folder, save_failed_stocks,
get_failed_stocks)`; a `from M import a, b` statement raises `ImportError`
as soon as a requested name is not an attribute of the loaded module `M`.
The attribute set of `data_utils` is fully determined by `src/data_utils.py`
(its imports and top-level definitions).  Both entry-point scripts then
execute `from batch_processor import (run_parallel_stock_processing,
retry_failed_stocks, _process_single_stock)` at module level, before any
dispatch on the run mode. -/

/-- The top-level function definitions of `src/data_utils.py`. -/
def data_utils_toplevel_defs : List String :=
  ["parse_stock_info_from_filename", "convert_stock_code",
   "get_stock_list_from_csv_folder", "get_failed_log_path",
   "get_failed_stocks", "analyze_factor_summary",
   "print_factor_summary_once", "reset_factor_summary_flag",
   "categorize_error", "get_exchange", "analyze_failures",
   "write_failure_logs"]

/-- All module attributes of `data_utils`: its own imports and globals plus
its top-level definitions. -/
def data_utils_module_attrs : List String :=
  ["os", "re", "datetime", "pd", "_factor_summary_printed"]
    ++ data_utils_toplevel_defs

/-- The names `batch_processor.py` lines 11-15 request from `data_utils`. -/
def batch_processor_import_from_data_utils : List String :=
  ["get_stock_list_from_csv_folder", "save_failed_stocks",
   "get_failed_stocks"]

/-- The top-level function definitions of `src/batch_processor.py` (nothing
else in that file defines a module-level name besides its imports; the
star import of the absent `factor_utils` module never executes usefully
because the module fails to load at the `data_utils` import anyway). -/
def batch_processor_toplevel_defs : List String :=
  ["test_single_stock", "batch_process_stocks_parallel",
   "batch_process_stocks", "retry_failed_stocks"]

/-- The names both entry-point scripts request from `batch_processor`
(`run_batch_factor_processing.py` lines 18-22,
`feval_batch_factor_processing.py` lines 11-15). -/
def entry_script_import_from_batch_processor : List String :=
  ["run_parallel_stock_processing", "retry_failed_stocks",
   "_process_single_stock"]

/-- `from M import a, b, ...` succeeds only when every requested name is an
attribute of `M`. -/
def from_import_ok (attrs requested : List String) : Bool :=
  requested.all fun n => attrs.contains n

/-- Whether `import batch_processor` succeeds: its `from data_utils import`
statement must find all three requested names. -/
def import_batch_processor_ok : Bool :=
  from_import_ok data_utils_module_attrs batch_processor_import_from_data_utils

/-- An entry-point script: its module-level imports run first, and only if
they succeed does it dispatch the selected run mode.  `dispatch` stands for
whatever a run mode would do. -/
def run_entry_script (dispatch : String → Except String Unit)
    (mode : String) : Except String Unit :=
  if import_batch_processor_ok then dispatch mode
  else Except.error
    "ImportError - cannot import name save_failed_stocks from data_utils"

/-! ### Concrete inputs used by counterexamples and witnesses -/

/-- A well-formed seed filename for unit `A`. -/
def fileA : String := "000001.SZ-平安银行-日线后复权及常用指标-20250718.csv"

/-- A well-formed seed filename for unit `B`. -/
def fileB : String := "600000.SH-浦发银行-日线后复权及常用指标-20250718.csv"

/-- A well-formed seed filename for unit `C`. -/
def fileC : String := "000002.SZ-万科A-日线后复权及常用指标-20250718.csv"

/-- The spec's end-to-end scenario folder: three valid artifacts. -/
def listingABC : List String := [fileA, fileB, fileC]

/-- The stock-info record parsed from `fileA`. -/
def infoA : StockInfo := ⟨"000001.SZ", "000001.XSHE", "平安银行", "20250718"⟩

/-- The stock-info record parsed from `fileB`. -/
def infoB : StockInfo := ⟨"600000.SH", "600000.XSHG", "浦发银行", "20250718"⟩

/-- The stock-info record parsed from `fileC`. -/
def infoC : StockInfo := ⟨"000002.SZ", "000002.XSHE", "万科A", "20250718"⟩

/-- The spec's stub processor behaviour: success for `A` and `C`, a failure
with reason `"no data"` for `B`. -/
def domABC (code : String) : DomainOutcome :=
  if code = infoB.converted_code then DomainOutcome.raises "ValueError" "no data"
  else DomainOutcome.success 1

/-- A ledger file whose two lines record failures of units `A` and `B`. -/
def ledgerAB : List String :=
  ["000001.XSHE|平安银行|生成因子失败|20250718_120000",
   "600000.XSHG|浦发银行|生成因子失败|20250718_120000"]

/-- A failure record used by the ledger-replacement witness. -/
def recA : FailureRec := ⟨"000001.XSHE", "平安银行", "生成因子失败"⟩

/-- A second failure record used by the ledger-replacement witness. -/
def recB : FailureRec := ⟨"600000.XSHG", "浦发银行", "生成因子失败"⟩

/-- A concrete two-future completion list, used to instantiate the
order-independence theorem. -/
def permDemo : List (StockInfo × Except String PyVal) :=
  mkFutures domABC [infoA, infoB]

/-! ### Helper lemmas shared by the claim theorems -/

theorem processCompleted_success_count (end_date : String) (st : BatchState)
    (item : StockInfo × Except String PyVal) :
    (processCompleted end_date st item).success_count
      = st.success_count + (if itemSucceeds item then 1 else 0) := by
  obtain ⟨info, res⟩ := item
  cases res with
  | error e => simp [processCompleted, itemSucceeds]
  | ok v =>
    by_cases hv : v ≠ PyVal.none
    · cases hcsv : to_csv v with
      | ok u => simp [processCompleted, itemSucceeds, hv, hcsv]
      | error e => simp [processCompleted, itemSucceeds, hv, hcsv]
    · simp [processCompleted, itemSucceeds, hv]

theorem processCompleted_failed_count (end_date : String) (st : BatchState)
    (item : StockInfo × Except String PyVal) :
    (processCompleted end_date st item).failed_count
      = st.failed_count + (if itemSucceeds item then 0 else 1) := by
  obtain ⟨info, res⟩ := item
  cases res with
  | error e => simp [processCompleted, itemSucceeds]
  | ok v =>
    by_cases hv : v ≠ PyVal.none
    · cases hcsv : to_csv v with
      | ok u => simp [processCompleted, itemSucceeds, hv, hcsv]
      | error e => simp [processCompleted, itemSucceeds, hv, hcsv]
    · simp [processCompleted, itemSucceeds, hv]

theorem processCompleted_failed_stocks (end_date : String) (st : BatchState)
    (item : StockInfo × Except String PyVal) :
    (processCompleted end_date st item).failed_stocks
      = st.failed_stocks
        ++ (if itemSucceeds item then [] else [itemFailureRec item]) := by
  obtain ⟨info, res⟩ := item
  cases res with
  | error e => simp [processCompleted, itemSucceeds, itemFailureRec]
  | ok v =>
    by_cases hv : v ≠ PyVal.none
    · cases hcsv : to_csv v with
      | ok u => simp [processCompleted, itemSucceeds, itemFailureRec, hv, hcsv]
      | error e => simp [processCompleted, itemSucceeds, itemFailureRec, hv, hcsv]
    · simp [processCompleted, itemSucceeds, itemFailureRec, hv]

theorem processCompleted_outputFiles (end_date : String) (st : BatchState)
    (item : StockInfo × Except String PyVal) (h : itemSucceeds item = false) :
    (processCompleted end_date st item).outputFiles = st.outputFiles := by
  obtain ⟨info, res⟩ := item
  cases res with
  | error e => simp [processCompleted]
  | ok v =>
    by_cases hv : v ≠ PyVal.none
    · cases hcsv : to_csv v with
      | ok u => simp [itemSucceeds, hv, hcsv] at h
      | error e => simp [processCompleted, hv, hcsv]
    · simp [processCompleted, hv]

theorem runBatchLoop_success_count (end_date : String)
    (l : List (StockInfo × Except String PyVal)) (init : BatchState) :
    (runBatchLoop end_date l init).success_count
      = init.success_count + l.countP itemSucceeds := by
  induction l generalizing init with
  | nil => simp [runBatchLoop]
  | cons a t ih =>
    have hstep := processCompleted_success_count end_date init a
    simp only [runBatchLoop, List.foldl_cons] at *
    rw [ih, hstep, List.countP_cons]
    by_cases h : itemSucceeds a <;> simp [h] <;> omega

theorem runBatchLoop_failed_count (end_date : String)
    (l : List (StockInfo × Except String PyVal)) (init : BatchState) :
    (runBatchLoop end_date l init).failed_count
      = init.failed_count + l.countP (fun it => !itemSucceeds it) := by
  induction l generalizing init with
  | nil => simp [runBatchLoop]
  | cons a t ih =>
    have hstep := processCompleted_failed_count end_date init a
    simp only [runBatchLoop, List.foldl_cons] at *
    rw [ih, hstep, List.countP_cons]
    by_cases h : itemSucceeds a <;> simp [h] <;> omega

theorem runBatchLoop_failed_stocks (end_date : String)
    (l : List (StockInfo × Except String PyVal)) (init : BatchState) :
    (runBatchLoop end_date l init).failed_stocks
      = init.failed_stocks
        ++ (l.filter fun it => !itemSucceeds it).map itemFailureRec := by
  induction l generalizing init with
  | nil => simp [runBatchLoop]
  | cons a t ih =>
    have hstep := processCompleted_failed_stocks end_date init a
    simp only [runBatchLoop, List.foldl_cons] at *
    rw [ih, hstep, List.filter_cons]
    by_cases h : itemSucceeds a <;> simp [h]

theorem runBatchLoop_outputFiles (end_date : String)
    (l : List (StockInfo × Except String PyVal)) (init : BatchState)
    (h : ∀ it ∈ l, itemSucceeds it = false) :
    (runBatchLoop end_date l init).outputFiles = init.outputFiles := by
  induction l generalizing init with
  | nil => simp [runBatchLoop]
  | cons a t ih =>
    simp only [runBatchLoop, List.foldl_cons] at *
    rw [ih _ fun it hit => h it (List.mem_cons_of_mem a hit),
      processCompleted_outputFiles end_date init a (h a (List.mem_cons_self a t))]

theorem generate_is_pair (code : String) (o : DomainOutcome) :
    ∃ a b, generate_factors_for_stock code o = PyVal.pair a b := by
  cases o <;> exact ⟨_, _, rfl⟩

theorem itemSucceeds_mkFutures (dom : String → DomainOutcome)
    (sl : List StockInfo) :
    ∀ it ∈ mkFutures dom sl, itemSucceeds it = false := by
  intro it hit
  simp only [mkFutures, List.mem_map] at hit
  obtain ⟨s, _, rfl⟩ := hit
  obtain ⟨a, b, hab⟩ := generate_is_pair s.converted_code (dom s.converted_code)
  simp [itemSucceeds, hab, to_csv]

theorem itemFailureRec_mkFutures (dom : String → DomainOutcome) (s : StockInfo) :
    itemFailureRec (s, Except.ok (generate_factors_for_stock s.converted_code
        (dom s.converted_code)))
      = ⟨s.converted_code, s.stock_name, tupleAttrMsg⟩ := by
  obtain ⟨a, b, hab⟩ := generate_is_pair s.converted_code (dom s.converted_code)
  simp [itemFailureRec, hab, to_csv]

theorem retry_run_raises (ledgerFile : Option (List String))
    (end_date : String) (dom : String → DomainOutcome)
    (outDir : List String) (timestamp : String) :
    retry_failed_stocks_run ledgerFile end_date dom outDir timestamp
      = ⟨some retryTypeErrorMsg, 0, 0, outDir, ledgerFile⟩ := rfl

theorem parseLedgerLine_eq (line : String) :
    parseLedgerLine line
      = if goodLedgerLine line then some (ledgerLineUnit line) else none := by
  unfold parseLedgerLine goodLedgerLine ledgerLineUnit
  by_cases hs : strStrip line = ""
  · simp [hs]
  · rcases h : splitOnPipeStr (strStrip line) with _ | ⟨p0, _ | ⟨p1, rest⟩⟩
    · simp [hs, h]
    · simp [hs, h]
    · simp [hs, h]

theorem get_failed_stocks_read_eq (lines : List String) :
    get_failed_stocks_read (some lines)
      = (lines.filter goodLedgerLine).map ledgerLineUnit := by
  simp only [get_failed_stocks_read]
  induction lines with
  | nil => rfl
  | cons a t ih =>
    rw [List.filterMap_cons, List.filter_cons, parseLedgerLine_eq]
    by_cases h : goodLedgerLine a <;> simp [h, ih]

theorem stringifyException_ne_empty (ty msg : String) :
    stringifyException ty msg ≠ "" := by
  intro h
  have hlen := congrArg String.length h
  simp only [stringifyException, String.length_append] at hlen
  have h3 : (" - " : String).length = 3 := rfl
  have h0 : ("" : String).length = 0 := rfl
  omega

theorem countP_add_countP_not {α : Type} (p : α → Bool) (l : List α) :
    l.countP p + l.countP (fun a => !p a) = l.length := by
  induction l with
  | nil => simp
  | cons a t ih =>
    rw [List.countP_cons, List.countP_cons, List.length_cons]
    by_cases h : p a <;> simp [h] <;> omega

/-! ### The claims -/

/-- Claim C1: for every input list of N work units and every assignment of
per-unit outcomes (a resolved value — possibly `None` —, a raised
exception, and possibly a raise during the save), the executor's
aggregation satisfies `success_count + len(failed_stocks) = N`: each drained
future either increments the success counter or appends exactly one failure
record, never both and never neither; composed into
`batch_process_stocks_parallel`, the worker count only bounds in-flight
futures, so the completion order — any permutation of the submitted
futures — is the only thing it can influence, and the equation holds for
every completion order. -/
theorem claim_C1 :
    (∀ (end_date : String) (st : BatchState)
        (item : StockInfo × Except String PyVal),
      ((processCompleted end_date st item).success_count
          + (processCompleted end_date st item).failed_stocks.length
        = st.success_count + st.failed_stocks.length + 1)
      ∧ ((processCompleted end_date st item).success_count = st.success_count
        ∨ (processCompleted end_date st item).failed_stocks
            = st.failed_stocks))
    ∧ (∀ (end_date : String)
        (completed : List (StockInfo × Except String PyVal))
        (init : BatchState),
      (runBatchLoop end_date completed init).success_count
          + (runBatchLoop end_date completed init).failed_stocks.length
        = init.success_count + init.failed_stocks.length + completed.length)
    ∧ (∀ (listing : List String) (limit : Option Int) (end_date : String)
        (dom : String → DomainOutcome)
        (arrive : List (StockInfo × Except String PyVal) →
          List (StockInfo × Except String PyVal))
        (outDir ledger : List String) (ts : String),
      (arrive (mkFutures dom
          (get_stock_list_from_csv_folder listing limit))).Perm
        (mkFutures dom (get_stock_list_from_csv_folder listing limit)) →
      (batch_process_stocks_parallel listing limit end_date dom arrive outDir
          ledger ts).1.success_count
        + (batch_process_stocks_parallel listing limit end_date dom arrive
            outDir ledger ts).1.failed_stocks.length
        = (get_stock_list_from_csv_folder listing limit).length) := by
  refine ⟨?_, ?_, ?_⟩
  · intro end_date st item
    constructor
    · rw [processCompleted_success_count, processCompleted_failed_stocks,
        List.length_append]
      by_cases h : itemSucceeds item <;> simp [h] <;> omega
    · by_cases h : itemSucceeds item
      · right
        rw [processCompleted_failed_stocks]
        simp [h]
      · left
        rw [processCompleted_success_count]
        simp [h]
  · intro end_date completed init
    rw [runBatchLoop_success_count, runBatchLoop_failed_stocks,
      List.length_append, List.length_map, ← List.countP_eq_length_filter]
    have := countP_add_countP_not itemSucceeds completed
    omega
  · intro listing limit end_date dom arrive outDir ledger ts harr
    by_cases hemp : (get_stock_list_from_csv_folder listing limit).isEmpty
    · have hnil : get_stock_list_from_csv_folder listing limit = [] :=
        List.isEmpty_iff.mp hemp
      simp [batch_process_stocks_parallel, hemp, hnil]
    · have hL : (arrive (mkFutures dom
          (get_stock_list_from_csv_folder listing limit))).length
          = (get_stock_list_from_csv_folder listing limit).length := by
        rw [harr.length_eq]
        simp [mkFutures]
      simp only [batch_process_stocks_parallel, hemp, Bool.false_eq_true,
        if_false]
      rw [runBatchLoop_success_count, runBatchLoop_failed_stocks,
        List.length_append, List.length_map, ← List.countP_eq_length_filter]
      have := countP_add_countP_not itemSucceeds
        (arrive (mkFutures dom (get_stock_list_from_csv_folder listing limit)))
      simp only [List.length_nil] at *
      omega

/-- Witness for C1 at a concrete one-file folder, identity arrival order. -/
theorem claim_C1_witness :
    (batch_process_stocks_parallel [fileA] none "20250718"
        (fun _ => DomainOutcome.success 1) id [] [] "ts").1.success_count
      + (batch_process_stocks_parallel [fileA] none "20250718"
          (fun _ => DomainOutcome.success 1) id [] [] "ts").1.failed_stocks.length
      = (get_stock_list_from_csv_folder [fileA] none).length :=
  claim_C1.2.2 [fileA] none "20250718" (fun _ => DomainOutcome.success 1) id
    [] [] "ts" (List.Perm.refl _)

/-- Claim C3: importing `batch_processor` raises `ImportError` because
`save_failed_stocks` is not an attribute of `data_utils`; consequently every
run mode of both entry-point scripts — whose module-level
`from batch_processor import ...` additionally requests
`run_parallel_stock_processing` and `_process_single_stock`, names
`batch_processor.py` never defines — fails before any work unit is
dispatched, whatever the dispatched mode would have done. -/
theorem claim_C3 :
    import_batch_processor_ok = false
    ∧ data_utils_module_attrs.contains "save_failed_stocks" = false
    ∧ (∀ (dispatch : String → Except String Unit) (mode : String),
        run_entry_script dispatch mode = Except.error
          "ImportError - cannot import name save_failed_stocks from data_utils")
    ∧ batch_processor_toplevel_defs.contains "run_parallel_stock_processing"
        = false
    ∧ batch_processor_toplevel_defs.contains "_process_single_stock"
        = false := by
  refine ⟨by decide, by decide, ?_, by decide, by decide⟩
  intro dispatch mode
  have h : import_batch_processor_ok = false := by decide
  simp [run_entry_script, h]

/-- Counterexample to C4: with the ledger holding exactly units A and B and
a processor under which both would now succeed, the retry run raises a
`TypeError` at once; the ledger afterwards still holds A and B (it is not
empty) and no 2/2 success is reported. -/
theorem claim_C4_counterexample :
    (retry_failed_stocks_run (some ledgerAB) "20250718"
        (fun _ => DomainOutcome.success 1) [] "ts").ledger = some ledgerAB
    ∧ (retry_failed_stocks_run (some ledgerAB) "20250718"
        (fun _ => DomainOutcome.success 1) [] "ts").ledger
      ≠ some ([] : List String)
    ∧ (retry_failed_stocks_run (some ledgerAB) "20250718"
        (fun _ => DomainOutcome.success 1) [] "ts").success_count = 0
    ∧ (retry_failed_stocks_run (some ledgerAB) "20250718"
        (fun _ => DomainOutcome.success 1) [] "ts").raised
      = some retryTypeErrorMsg := by
  refine ⟨?_, ?_, ?_, ?_⟩ <;> rw [retry_run_raises] <;> decide

/-- Claim C4 as amended: running the retry pass raises `TypeError`
immediately — `retry_failed_stocks` passes three positional arguments to
`get_failed_stocks`, which `data_utils` defines with none — so for every
ledger content and every per-unit behaviour the ledger and the output
directory are left exactly as they were (the ledger is never cleared, stale
records included) and no successes are reported. -/
theorem claim_C4 :
    ∀ (ledgerFile : Option (List String)) (end_date : String)
      (dom : String → DomainOutcome) (outDir : List String) (ts : String),
      retry_failed_stocks_run ledgerFile end_date dom outDir ts
        = ⟨some retryTypeErrorMsg, 0, 0, outDir, ledgerFile⟩ :=
  fun ledgerFile end_date dom outDir ts =>
    retry_run_raises ledgerFile end_date dom outDir ts

/-- Claim C6: a ledger write is a full-snapshot replacement — writing `F1`
and then `F2` leaves the ledger containing exactly the serialization of
`F2`, and a line of `F1` can only survive as the serialization of some
record of `F2`; nothing of `F1` accumulates. -/
theorem claim_C6 (old : List String) (F1 F2 : List FailureRec)
    (ts1 ts2 : String) :
    save_failed_stocks (save_failed_stocks old F1 ts1) F2 ts2
      = save_failed_stocks old F2 ts2
    ∧ save_failed_stocks (save_failed_stocks old F1 ts1) F2 ts2
      = F2.map (serializeFailure ts2)
    ∧ ∀ r ∈ F1,
        serializeFailure ts1 r
            ∈ save_failed_stocks (save_failed_stocks old F1 ts1) F2 ts2 →
        ∃ r2 ∈ F2, serializeFailure ts2 r2 = serializeFailure ts1 r := by
  refine ⟨rfl, rfl, ?_⟩
  intro r _ hmem
  exact List.mem_map.mp hmem

/-- Witness for C6: after writing `[recA]` and then `[recB]`, the ledger is
exactly the serialization of `[recB]` and recA's line is gone. -/
theorem claim_C6_witness :
    save_failed_stocks (save_failed_stocks [] [recA] "t1") [recB] "t2"
      = [recB].map (serializeFailure "t2")
    ∧ serializeFailure "t1" recA
        ∉ save_failed_stocks (save_failed_stocks [] [recA] "t1") [recB] "t2" :=
  ⟨(claim_C6 [] [recA] [recB] "t1" "t2").2.1, by decide⟩

/-- Claim C7: reading the failure ledger never raises (the reader is a total
function of the file content): a missing or empty ledger file yields the
empty list, a line that strips to blank or has fewer than two pipe-delimited
fields is skipped, and every line with at least two pipe-delimited fields
yields exactly one work unit made of its first two fields, the remaining
reason and timestamp fields being ignored. -/
theorem claim_C7 :
    get_failed_stocks_read none = []
    ∧ get_failed_stocks_read (some []) = []
    ∧ (∀ lines : List String,
        get_failed_stocks_read (some lines)
          = (lines.filter goodLedgerLine).map ledgerLineUnit)
    ∧ (∀ line : String, goodLedgerLine line = false →
        parseLedgerLine line = none)
    ∧ (∀ line : String, goodLedgerLine line = true →
        parseLedgerLine line = some (ledgerLineUnit line)) := by
  refine ⟨rfl, rfl, get_failed_stocks_read_eq, ?_, ?_⟩ <;>
    intro line h <;> rw [parseLedgerLine_eq] <;> simp [h]

/-- Witness for C7: the two-line A/B ledger reads back as the two units, and
a pipe-free line is skipped. -/
theorem claim_C7_witness :
    get_failed_stocks_read (some ledgerAB)
      = [⟨"000001.XSHE", "平安银行"⟩, ⟨"600000.XSHG", "浦发银行"⟩]
    ∧ parseLedgerLine "a malformed ledger line" = none :=
  ⟨(claim_C7.2.2.1 ledgerAB).trans (by decide),
   claim_C7.2.2.2.1 "a malformed ledger line" (by decide)⟩

/-- Counterexample to C10: with one parseable file and `limit = 0`, the scan
returns the whole one-element list, not the first `0` elements — Python's
`if limit:` treats `0` like `None` and skips the truncation. -/
theorem claim_C10_counterexample :
    get_stock_list_from_csv_folder [fileA] (some 0) = [infoA]
    ∧ (get_stock_list_from_csv_folder [fileA] none).take (Int.toNat 0) = []
    ∧ get_stock_list_from_csv_folder [fileA] (some 0)
      ≠ (get_stock_list_from_csv_folder [fileA] none).take (Int.toNat 0) := by
  refine ⟨by decide, by decide, by decide⟩

/-- Claim C10 as amended: for every positive limit the scan returns exactly
the first `limit` elements — a prefix in scan order — of the list it returns
without a limit; a limit of `None` or `0` returns all parseable units; and a
filename that does not match the naming convention is silently skipped
rather than causing an error. -/
theorem claim_C10 :
    (∀ (listing : List String) (k : Int), 0 < k →
      get_stock_list_from_csv_folder listing (some k)
        = (get_stock_list_from_csv_folder listing none).take k.toNat)
    ∧ (∀ listing : List String,
        get_stock_list_from_csv_folder listing (some 0)
          = get_stock_list_from_csv_folder listing none)
    ∧ (∀ listing : List String,
        get_stock_list_from_csv_folder listing none
          = listing.filterMap stockInfoOfFilename)
    ∧ (∀ (good bad : String) (u : StockInfo),
        stockInfoOfFilename good = some u →
        stockInfoOfFilename bad = none →
        get_stock_list_from_csv_folder [good, bad] none = [u]) := by
  refine ⟨?_, ?_, fun _ => rfl, ?_⟩
  · intro listing k hk
    have hk0 : k ≠ 0 := by omega
    simp only [get_stock_list_from_csv_folder, pySliceTo, hk0,
      if_pos (le_of_lt hk)]
    simp [hk0]
  · intro listing
    simp [get_stock_list_from_csv_folder]
  · intro good bad u h1 h2
    simp [get_stock_list_from_csv_folder, List.filterMap_cons, h1, h2]

/-- Witness for C10: prefix-take with limit 1 on a two-file folder, and one
matching plus one non-matching file yielding exactly one unit. -/
theorem claim_C10_witness :
    get_stock_list_from_csv_folder [fileA, fileB] (some 1)
      = (get_stock_list_from_csv_folder [fileA, fileB] none).take
          (Int.toNat 1)
    ∧ get_stock_list_from_csv_folder [fileA, "junk.csv"] none = [infoA] :=
  ⟨claim_C10.1 [fileA, fileB] 1 (by decide),
   claim_C10.2.2.2 fileA "junk.csv" infoA (by decide) (by decide)⟩

/-- Claim C2 (evaluating the code at the spec's end-to-end scenario): with
three valid artifacts A, B, C and a processor that succeeds for A and C and
fails for B with reason `"no data"`, the batch ends with `success_count = 0`
and all three units in the failure list — each with the
`.to_csv`-on-a-tuple `AttributeError`, not the stub's reason — and no output
artifact is written; the ledger receives three lines.  The spec's intended
outcome (`success_count = 2`, only B failed, artifacts for A and C) does not
hold because the executor tests the `(payload, error)` tuple returned by
`generate_factors_for_stock` with `is not None` and saves the tuple
itself. -/
theorem claim_C2 :
    (batch_process_stocks_parallel listingABC none "20250718" domABC id []
        [] "ts").1.success_count = 0
    ∧ (batch_process_stocks_parallel listingABC none "20250718" domABC id []
        [] "ts").1.failed_count = 3
    ∧ (batch_process_stocks_parallel listingABC none "20250718" domABC id []
        [] "ts").1.failed_stocks.map FailureRec.stock_code
      = [infoA.converted_code, infoB.converted_code, infoC.converted_code]
    ∧ (batch_process_stocks_parallel listingABC none "20250718" domABC id []
        [] "ts").1.failed_stocks.map FailureRec.error
      = [tupleAttrMsg, tupleAttrMsg, tupleAttrMsg]
    ∧ (batch_process_stocks_parallel listingABC none "20250718" domABC id []
        [] "ts").1.outputFiles = []
    ∧ (batch_process_stocks_parallel listingABC none "20250718" domABC id []
        [] "ts").2.length = 3 := by
  refine ⟨by decide, by decide, by decide, by decide, by decide, by decide⟩

/-- Claim C5: for a unit X whose underlying domain computation raises any
exception, the per-unit boundary does not propagate it —
`generate_factors_for_stock` returns a `(None, reason)` outcome whose reason
is the non-empty stringified exception — the batch still completes for all
units (`success_count` plus the failure-list length covers the whole input),
X appears exactly once in the failure list, and every failure reason there
is a non-empty string. -/
theorem claim_C5 (listing : List String) (limit : Option Int)
    (end_date : String) (dom : String → DomainOutcome)
    (arrive : List (StockInfo × Except String PyVal) →
      List (StockInfo × Except String PyVal))
    (outDir ledger : List String) (ts : String) (X : StockInfo)
    (ty msg : String)
    (hmem : X ∈ get_stock_list_from_csv_folder listing limit)
    (hnodup : ((get_stock_list_from_csv_folder listing limit).map
      StockInfo.converted_code).Nodup)
    (hdom : dom X.converted_code = DomainOutcome.raises ty msg)
    (harr : (arrive (mkFutures dom
        (get_stock_list_from_csv_folder listing limit))).Perm
      (mkFutures dom (get_stock_list_from_csv_folder listing limit))) :
    (generate_factors_for_stock X.converted_code (dom X.converted_code)
        = PyVal.pair PyVal.none (PyVal.str (stringifyException ty msg))
      ∧ stringifyException ty msg ≠ "")
    ∧ (batch_process_stocks_parallel listing limit end_date dom arrive outDir
          ledger ts).1.success_count
        + (batch_process_stocks_parallel listing limit end_date dom arrive
            outDir ledger ts).1.failed_stocks.length
      = (get_stock_list_from_csv_folder listing limit).length
    ∧ ((batch_process_stocks_parallel listing limit end_date dom arrive
          outDir ledger ts).1.failed_stocks.filter
        (fun r => r.stock_code == X.converted_code)).length = 1
    ∧ ∀ r ∈ (batch_process_stocks_parallel listing limit end_date dom arrive
        outDir ledger ts).1.failed_stocks, r.error ≠ "" := by
  have hne : get_stock_list_from_csv_folder listing limit ≠ [] :=
    List.ne_nil_of_mem hmem
  have hemp : (get_stock_list_from_csv_folder listing limit).isEmpty
      = false := by
    cases h : get_stock_list_from_csv_folder listing limit with
    | nil => exact absurd h hne
    | cons a t => rfl
  have hmain : (batch_process_stocks_parallel listing limit end_date dom
        arrive outDir ledger ts).1
      = runBatchLoop end_date (arrive (mkFutures dom
          (get_stock_list_from_csv_folder listing limit)))
        ⟨0, 0, [], outDir.filter fun f => !isCsvName f⟩ := by
    simp only [batch_process_stocks_parallel, hemp, Bool.false_eq_true,
      if_false]
  have hallfail : ∀ it ∈ arrive (mkFutures dom
      (get_stock_list_from_csv_folder listing limit)),
      itemSucceeds it = false := fun it hit =>
    itemSucceeds_mkFutures dom _ it (harr.mem_iff.mp hit)
  have hcount0 : (arrive (mkFutures dom
      (get_stock_list_from_csv_folder listing limit))).countP itemSucceeds
      = 0 :=
    List.countP_eq_zero.mpr fun it hit => by simp [hallfail it hit]
  have hfilter : (arrive (mkFutures dom
        (get_stock_list_from_csv_folder listing limit))).filter
        (fun it => !itemSucceeds it)
      = arrive (mkFutures dom
        (get_stock_list_from_csv_folder listing limit)) :=
    List.filter_eq_self.mpr fun it hit => by simp [hallfail it hit]
  have hLlen : (arrive (mkFutures dom
        (get_stock_list_from_csv_folder listing limit))).length
      = (get_stock_list_from_csv_folder listing limit).length := by
    rw [harr.length_eq]
    simp [mkFutures]
  have hfailed : (batch_process_stocks_parallel listing limit end_date dom
        arrive outDir ledger ts).1.failed_stocks
      = (arrive (mkFutures dom
          (get_stock_list_from_csv_folder listing limit))).map
        itemFailureRec := by
    rw [hmain, runBatchLoop_failed_stocks, hfilter]
    simp
  have hsucc : (batch_process_stocks_parallel listing limit end_date dom
        arrive outDir ledger ts).1.success_count = 0 := by
    rw [hmain, runBatchLoop_success_count, hcount0]
  refine ⟨⟨by rw [hdom]; rfl, stringifyException_ne_empty ty msg⟩, ?_, ?_, ?_⟩
  · rw [hsucc, hfailed, List.length_map, hLlen]
    omega
  · rw [hfailed, ← List.countP_eq_length_filter, List.countP_map,
      harr.countP_eq]
    have hcnt : (get_stock_list_from_csv_folder listing limit).countP
        (fun s => s.converted_code == X.converted_code) = 1 := by
      have h1 := List.count_eq_one_of_mem hnodup
        (List.mem_map_of_mem StockInfo.converted_code hmem)
      rw [List.count_eq_countP, List.countP_map] at h1
      simpa [Function.comp] using h1
    rw [← hcnt]
    simp only [mkFutures, List.countP_map]
    apply List.countP_congr
    intro s _
    simp [Function.comp, itemFailureRec_mkFutures]
  · intro r hr
    rw [hfailed] at hr
    obtain ⟨it, hit, rfl⟩ := List.mem_map.mp hr
    have hitF := harr.mem_iff.mp hit
    simp only [mkFutures, List.mem_map] at hitF
    obtain ⟨s, _, rfl⟩ := hitF
    rw [itemFailureRec_mkFutures]
    exact show tupleAttrMsg ≠ "" by decide

/-- Witness for C5: a two-file folder where unit B's computation raises
`ValueError("no data")`; B lands in the failure list exactly once. -/
theorem claim_C5_witness :
    ((batch_process_stocks_parallel [fileA, fileB] none "20250718" domABC id
        [] [] "ts").1.failed_stocks.filter
      (fun r => r.stock_code == infoB.converted_code)).length = 1 :=
  (claim_C5 [fileA, fileB] none "20250718" domABC id [] [] "ts" infoB
    "ValueError" "no data" (by decide) (by decide) (by decide)
    (List.Perm.refl _)).2.2.1

/-- Claim C8: the aggregate result is a function of the multiset of per-unit
outcomes only.  Two drains of the same completed futures in any two arrival
orders (worker count influences nothing else) give the same success count,
the same failure count, and failure lists — hence failed-identifier sets —
that are permutations of each other; the full runs also produce ledger
contents that are permutations of each other. -/
theorem claim_C8 :
    (∀ (end_date : String)
        (l l' : List (StockInfo × Except String PyVal))
        (files files' : List String), l.Perm l' →
      (runBatchLoop end_date l ⟨0, 0, [], files⟩).success_count
          = (runBatchLoop end_date l' ⟨0, 0, [], files'⟩).success_count
      ∧ (runBatchLoop end_date l ⟨0, 0, [], files⟩).failed_count
          = (runBatchLoop end_date l' ⟨0, 0, [], files'⟩).failed_count
      ∧ ((runBatchLoop end_date l ⟨0, 0, [], files⟩).failed_stocks).Perm
          ((runBatchLoop end_date l' ⟨0, 0, [], files'⟩).failed_stocks)
      ∧ (((runBatchLoop end_date l ⟨0, 0, [], files⟩).failed_stocks).map
          FailureRec.stock_code).Perm
          (((runBatchLoop end_date l' ⟨0, 0, [], files'⟩).failed_stocks).map
            FailureRec.stock_code))
    ∧ (∀ (listing : List String) (limit : Option Int) (end_date : String)
        (dom : String → DomainOutcome)
        (arrive arrive' : List (StockInfo × Except String PyVal) →
          List (StockInfo × Except String PyVal))
        (outDir ledger : List String) (ts : String),
      (arrive (mkFutures dom
          (get_stock_list_from_csv_folder listing limit))).Perm
        (mkFutures dom (get_stock_list_from_csv_folder listing limit)) →
      (arrive' (mkFutures dom
          (get_stock_list_from_csv_folder listing limit))).Perm
        (mkFutures dom (get_stock_list_from_csv_folder listing limit)) →
      (batch_process_stocks_parallel listing limit end_date dom arrive outDir
            ledger ts).1.success_count
          = (batch_process_stocks_parallel listing limit end_date dom arrive'
              outDir ledger ts).1.success_count
      ∧ (batch_process_stocks_parallel listing limit end_date dom arrive
            outDir ledger ts).1.failed_count
          = (batch_process_stocks_parallel listing limit end_date dom arrive'
              outDir ledger ts).1.failed_count
      ∧ ((batch_process_stocks_parallel listing limit end_date dom arrive
            outDir ledger ts).1.failed_stocks).Perm
          ((batch_process_stocks_parallel listing limit end_date dom arrive'
              outDir ledger ts).1.failed_stocks)
      ∧ (((batch_process_stocks_parallel listing limit end_date dom arrive
            outDir ledger ts).1.failed_stocks).map
            FailureRec.stock_code).Perm
          (((batch_process_stocks_parallel listing limit end_date dom arrive'
              outDir ledger ts).1.failed_stocks).map FailureRec.stock_code)
      ∧ ((batch_process_stocks_parallel listing limit end_date dom arrive
            outDir ledger ts).2).Perm
          ((batch_process_stocks_parallel listing limit end_date dom arrive'
              outDir ledger ts).2)) := by
  have loopPart : ∀ (end_date : String)
      (l l' : List (StockInfo × Except String PyVal))
      (files files' : List String), l.Perm l' →
      (runBatchLoop end_date l ⟨0, 0, [], files⟩).success_count
          = (runBatchLoop end_date l' ⟨0, 0, [], files'⟩).success_count
      ∧ (runBatchLoop end_date l ⟨0, 0, [], files⟩).failed_count
          = (runBatchLoop end_date l' ⟨0, 0, [], files'⟩).failed_count
      ∧ ((runBatchLoop end_date l ⟨0, 0, [], files⟩).failed_stocks).Perm
          ((runBatchLoop end_date l' ⟨0, 0, [], files'⟩).failed_stocks)
      ∧ (((runBatchLoop end_date l ⟨0, 0, [], files⟩).failed_stocks).map
          FailureRec.stock_code).Perm
          (((runBatchLoop end_date l' ⟨0, 0, [], files'⟩).failed_stocks).map
            FailureRec.stock_code) := by
    intro end_date l l' files files' h
    have hfs : ((runBatchLoop end_date l ⟨0, 0, [], files⟩).failed_stocks).Perm
        ((runBatchLoop end_date l' ⟨0, 0, [], files'⟩).failed_stocks) := by
      rw [runBatchLoop_failed_stocks, runBatchLoop_failed_stocks]
      simp only [List.nil_append]
      exact (h.filter _).map _
    refine ⟨?_, ?_, hfs, hfs.map _⟩
    · rw [runBatchLoop_success_count, runBatchLoop_success_count,
        h.countP_eq]
    · rw [runBatchLoop_failed_count, runBatchLoop_failed_count, h.countP_eq]
  refine ⟨loopPart, ?_⟩
  intro listing limit end_date dom arrive arrive' outDir ledger ts h1 h2
  by_cases hemp : (get_stock_list_from_csv_folder listing limit).isEmpty
  · have hres : batch_process_stocks_parallel listing limit end_date dom
        arrive outDir ledger ts
        = batch_process_stocks_parallel listing limit end_date dom arrive'
          outDir ledger ts := by
      simp only [batch_process_stocks_parallel, hemp, if_true]
    rw [hres]
    exact ⟨rfl, rfl, List.Perm.refl _, List.Perm.refl _, List.Perm.refl _⟩
  · have hemp' : (get_stock_list_from_csv_folder listing limit).isEmpty
        = false := by
      cases h : (get_stock_list_from_csv_folder listing limit).isEmpty
      · rfl
      · exact absurd h hemp
    have hperm : (arrive (mkFutures dom
        (get_stock_list_from_csv_folder listing limit))).Perm
        (arrive' (mkFutures dom
          (get_stock_list_from_csv_folder listing limit))) :=
      h1.trans h2.symm
    have hloop := loopPart end_date _ _
      (outDir.filter fun f => !isCsvName f)
      (outDir.filter fun f => !isCsvName f) hperm
    have hmain : (batch_process_stocks_parallel listing limit end_date dom
          arrive outDir ledger ts).1
        = runBatchLoop end_date (arrive (mkFutures dom
            (get_stock_list_from_csv_folder listing limit)))
          ⟨0, 0, [], outDir.filter fun f => !isCsvName f⟩ := by
      simp only [batch_process_stocks_parallel, hemp', Bool.false_eq_true,
        if_false]
    have hmain' : (batch_process_stocks_parallel listing limit end_date dom
          arrive' outDir ledger ts).1
        = runBatchLoop end_date (arrive' (mkFutures dom
            (get_stock_list_from_csv_folder listing limit)))
          ⟨0, 0, [], outDir.filter fun f => !isCsvName f⟩ := by
      simp only [batch_process_stocks_parallel, hemp', Bool.false_eq_true,
        if_false]
    have hled : (batch_process_stocks_parallel listing limit end_date dom
          arrive outDir ledger ts).2
        = (if (batch_process_stocks_parallel listing limit end_date dom
              arrive outDir ledger ts).1.failed_stocks.isEmpty then ledger
            else save_failed_stocks ledger
              (batch_process_stocks_parallel listing limit end_date dom
                arrive outDir ledger ts).1.failed_stocks ts) := by
      rw [hmain]
      simp only [batch_process_stocks_parallel, hemp', Bool.false_eq_true,
        if_false]
    have hled' : (batch_process_stocks_parallel listing limit end_date dom
          arrive' outDir ledger ts).2
        = (if (batch_process_stocks_parallel listing limit end_date dom
              arrive' outDir ledger ts).1.failed_stocks.isEmpty then ledger
            else save_failed_stocks ledger
              (batch_process_stocks_parallel listing limit end_date dom
                arrive' outDir ledger ts).1.failed_stocks ts) := by
      rw [hmain']
      simp only [batch_process_stocks_parallel, hemp', Bool.false_eq_true,
        if_false]
    rw [hmain, hmain']
    refine ⟨hloop.1, hloop.2.1, hloop.2.2.1, hloop.2.2.2, ?_⟩
    rw [hled, hled', hmain, hmain']
    by_cases hfs : (runBatchLoop end_date (arrive (mkFutures dom
        (get_stock_list_from_csv_folder listing limit)))
        ⟨0, 0, [], outDir.filter fun f => !isCsvName f⟩).failed_stocks
        = []
    · have hfs' : (runBatchLoop end_date (arrive' (mkFutures dom
          (get_stock_list_from_csv_folder listing limit)))
          ⟨0, 0, [], outDir.filter fun f => !isCsvName f⟩).failed_stocks
          = [] := by
        have := hloop.2.2.1
        rw [hfs] at this
        exact this.symm.eq_nil
      simp [hfs, hfs']
    · have hfs' : (runBatchLoop end_date (arrive' (mkFutures dom
          (get_stock_list_from_csv_folder listing limit)))
          ⟨0, 0, [], outDir.filter fun f => !isCsvName f⟩).failed_stocks
          ≠ [] := by
        intro hnil
        have := hloop.2.2.1
        rw [hnil] at this
        exact hfs this.eq_nil
      have he1 : (runBatchLoop end_date (arrive (mkFutures dom
          (get_stock_list_from_csv_folder listing limit)))
          ⟨0, 0, [], outDir.filter fun f => !isCsvName f⟩).failed_stocks.isEmpty
          = false := by
        cases h : (runBatchLoop end_date (arrive (mkFutures dom
            (get_stock_list_from_csv_folder listing limit)))
            ⟨0, 0, [], outDir.filter fun f => !isCsvName f⟩).failed_stocks with
        | nil => exact absurd h hfs
        | cons a t => rfl
      have he2 : (runBatchLoop end_date (arrive' (mkFutures dom
          (get_stock_list_from_csv_folder listing limit)))
          ⟨0, 0, [], outDir.filter fun f => !isCsvName f⟩).failed_stocks.isEmpty
          = false := by
        cases h : (runBatchLoop end_date (arrive' (mkFutures dom
            (get_stock_list_from_csv_folder listing limit)))
            ⟨0, 0, [], outDir.filter fun f => !isCsvName f⟩).failed_stocks with
        | nil => exact absurd h hfs'
        | cons a t => rfl
      rw [he1, he2]
      simp only [Bool.false_eq_true, if_false, save_failed_stocks]
      exact hloop.2.2.1.map _

/-- Witness for C8: the same two completed futures drained in submission
order and in reverse order, with different initial folder contents. -/
theorem claim_C8_witness :
    (runBatchLoop "20250718" permDemo ⟨0, 0, [], []⟩).success_count
      = (runBatchLoop "20250718" permDemo.reverse
          ⟨0, 0, [], ["keep.txt"]⟩).success_count
    ∧ ((runBatchLoop "20250718" permDemo ⟨0, 0, [], []⟩).failed_stocks).Perm
        ((runBatchLoop "20250718" permDemo.reverse
          ⟨0, 0, [], ["keep.txt"]⟩).failed_stocks) :=
  ⟨(claim_C8.1 "20250718" permDemo permDemo.reverse [] ["keep.txt"]
      (List.reverse_perm permDemo).symm).1,
   (claim_C8.1 "20250718" permDemo permDemo.reverse [] ["keep.txt"]
      (List.reverse_perm permDemo).symm).2.2.1⟩

/-- Claim C9 as amended: provided the fresh parallel batch run discovers at
least one work unit, every pre-existing `.csv` artifact in the output
directory is removed (none survives to the end of the run); when no unit is
discovered the run returns early and removes nothing.  A retry run removes
nothing from the output directory. -/
theorem claim_C9 (listing : List String) (limit : Option Int)
    (end_date : String) (dom : String → DomainOutcome)
    (arrive : List (StockInfo × Except String PyVal) →
      List (StockInfo × Except String PyVal))
    (outDir ledger : List String) (ts : String)
    (harr : (arrive (mkFutures dom
        (get_stock_list_from_csv_folder listing limit))).Perm
      (mkFutures dom (get_stock_list_from_csv_folder listing limit))) :
    (get_stock_list_from_csv_folder listing limit ≠ [] →
      ∀ f ∈ outDir, isCsvName f = true →
        f ∉ (batch_process_stocks_parallel listing limit end_date dom arrive
          outDir ledger ts).1.outputFiles)
    ∧ (∀ (ledgerFile : Option (List String)) (f : String), f ∈ outDir →
        f ∈ (retry_failed_stocks_run ledgerFile end_date dom outDir
          ts).outDir) := by
  constructor
  · intro hne f hf hcsv hmem2
    have hemp : (get_stock_list_from_csv_folder listing limit).isEmpty
        = false := by
      cases h : get_stock_list_from_csv_folder listing limit with
      | nil => exact absurd h hne
      | cons a t => rfl
    have hmain : (batch_process_stocks_parallel listing limit end_date dom
          arrive outDir ledger ts).1
        = runBatchLoop end_date (arrive (mkFutures dom
            (get_stock_list_from_csv_folder listing limit)))
          ⟨0, 0, [], outDir.filter fun g => !isCsvName g⟩ := by
      simp only [batch_process_stocks_parallel, hemp, Bool.false_eq_true,
        if_false]
    rw [hmain, runBatchLoop_outputFiles _ _ _
      (fun it hit => itemSucceeds_mkFutures dom _ it (harr.mem_iff.mp hit))]
      at hmem2
    have := (List.mem_filter.mp hmem2).2
    rw [hcsv] at this
    exact absurd this (by decide)
  · intro ledgerFile f hf
    rw [retry_run_raises]
    exact hf

/-- Witness for C9: a one-file fresh run removes the pre-existing
`old.csv`, and a retry run leaves it in place. -/
theorem claim_C9_witness :
    "old.csv" ∉ (batch_process_stocks_parallel [fileA] none "20250718"
        (fun _ => DomainOutcome.success 1) id ["old.csv"] []
        "ts").1.outputFiles
    ∧ "old.csv" ∈ (retry_failed_stocks_run (some ledgerAB) "20250718"
        (fun _ => DomainOutcome.success 1) ["old.csv"] "ts").outDir :=
  ⟨(claim_C9 [fileA] none "20250718" (fun _ => DomainOutcome.success 1) id
      ["old.csv"] [] "ts" (List.Perm.refl _)).1 (by decide) "old.csv"
      (by decide) (by decide),
   (claim_C9 [fileA] none "20250718" (fun _ => DomainOutcome.success 1) id
      ["old.csv"] [] "ts" (List.Perm.refl _)).2 (some ledgerAB) "old.csv"
      (by decide)⟩

/-- Counterexample to C9: a fresh parallel batch run over an empty source
folder returns before the cleanup loop, so a pre-existing `.csv` artifact in
the output directory survives the run. -/
theorem claim_C9_counterexample :
    isCsvName "stale.csv" = true
    ∧ (batch_process_stocks_parallel [] none "20250718"
        (fun _ => DomainOutcome.success 1) id ["stale.csv"] []
        "ts").1.outputFiles = ["stale.csv"]
    ∧ "stale.csv" ∈ (batch_process_stocks_parallel [] none "20250718"
        (fun _ => DomainOutcome.success 1) id ["stale.csv"] []
        "ts").1.outputFiles := by
  refine ⟨by decide, by decide, by decide⟩

end DnnFactor
